import Mathlib

/-!
# Verification of the stop-arrival query engine

Shallow embedding of `src/routes/buses.js` (the `GET /api/buses/stop/:stopId`
handler and its helpers `haversineDistance` and `calculateETA`), together with
the data model of `src/models/Bus.js`, `src/models/Stop.js` and the route
schema.  JavaScript numbers are modelled as real numbers (the spec and the
claims describe real arithmetic; IEEE-754 rounding is out of scope), except in
the query-string parsing pipeline, where `parseFloat` results are modelled
exactly as rationals extended with `NaN` and the two infinities so that
acceptance decisions are decidable.
-/

namespace BusBackend

/-! ## JavaScript numbers produced by `parseFloat` -/

/-- Result of JavaScript `parseFloat`: `NaN`, `±Infinity`, or a finite value.
Finite results of parsing a decimal literal are exact rationals. -/
inductive JSNumber where
  | nan
  | posInf
  | negInf
  | num (q : ℚ)
  deriving DecidableEq

/-- The decimal value of a digit character. -/
def digitVal (c : Char) : ℕ := c.toNat - '0'.toNat

/-- Split a character list into its longest digit prefix and the rest. -/
def spanDigits : List Char → List Char × List Char
  | [] => ([], [])
  | c :: cs =>
    if c.isDigit then
      let (d, r) := spanDigits cs
      (c :: d, r)
    else ([], c :: cs)

/-- Numeric value of a digit string (most significant first). -/
def digitsToNat (ds : List Char) : ℕ :=
  ds.foldl (fun acc c => 10 * acc + digitVal c) 0

/-- Apply a trailing `e`/`E` exponent part to a mantissa, JavaScript-style:
the exponent marker is only consumed when at least one digit follows it. -/
def applyExponent (m : ℚ) (cs : List Char) : ℚ :=
  match cs with
  | [] => m
  | c :: rest =>
    if c = 'e' ∨ c = 'E' then
      match rest with
      | '+' :: r2 =>
        let (ed, _) := spanDigits r2
        if ed.isEmpty then m else m * (10 : ℚ) ^ digitsToNat ed
      | '-' :: r2 =>
        let (ed, _) := spanDigits r2
        if ed.isEmpty then m else m / (10 : ℚ) ^ digitsToNat ed
      | r2 =>
        let (ed, _) := spanDigits r2
        if ed.isEmpty then m else m * (10 : ℚ) ^ digitsToNat ed
    else m

/-- Parse an unsigned decimal literal (`digits`, `digits.digits`, `.digits`,
optionally followed by an exponent).  `none` when no digit is present
(JavaScript `parseFloat` then yields `NaN`). -/
def parseUnsignedDecimal (cs : List Char) : Option ℚ :=
  let (ip, rest) := spanDigits cs
  match rest with
  | '.' :: rest2 =>
    let (fp, rest3) := spanDigits rest2
    if ip.isEmpty ∧ fp.isEmpty then none
    else
      some (applyExponent
        ((digitsToNat ip : ℚ) + (digitsToNat fp : ℚ) / (10 : ℚ) ^ fp.length) rest3)
  | _ =>
    if ip.isEmpty then none else some (applyExponent (digitsToNat ip : ℚ) rest)

/-- Parse the part of a `parseFloat` argument after the optional sign:
either the literal `Infinity` or an unsigned decimal literal. -/
def parseAfterSign (cs : List Char) (neg : Bool) : JSNumber :=
  if cs.take 8 = "Infinity".toList then
    if neg then .negInf else .posInf
  else
    match parseUnsignedDecimal cs with
    | none => .nan
    | some q => .num (if neg then -q else q)

/-- JavaScript whitespace skipped by `parseFloat` (common ASCII forms). -/
def isJsWhitespace (c : Char) : Bool :=
  c = ' ' || c = '\t' || c = '\n' || c = '\r'

/-- Model of JavaScript `parseFloat`: skip whitespace, read an optional sign,
then the longest numeric prefix; `NaN` when no numeric prefix exists. -/
def jsParseFloat (s : String) : JSNumber :=
  match s.toList.dropWhile isJsWhitespace with
  | '+' :: rest => parseAfterSign rest false
  | '-' :: rest => parseAfterSign rest true
  | rest => parseAfterSign rest false

/-- `req.query.passengerLat ? parseFloat(req.query.passengerLat) : null`
(line 84/85).  An absent parameter, or the empty string (the only falsy
string in JavaScript), yields `null`; any other string is parsed. -/
def pCoordOf (param : Option String) : Option JSNumber :=
  match param with
  | none => none
  | some s => if s = "" then none else some (jsParseFloat s)

/-- `pLat !== null && pLng !== null && !isNaN(pLat) && !isNaN(pLng)`
(line 86). -/
def hasPassengerOf (latParam lngParam : Option String) : Bool :=
  match pCoordOf latParam, pCoordOf lngParam with
  | some a, some b => a ≠ JSNumber.nan && b ≠ JSNumber.nan
  | _, _ => false

/-- Realization of a parsed coordinate as a real number.  Only the finite
case is ever relied on by the theorems below (the handler's arithmetic on a
non-finite accepted coordinate would propagate NaN/∞, which ℝ cannot
represent; theorems about the geometric fields therefore carry a finiteness
hypothesis on the parsed value). -/
noncomputable def jsRealOf (v : Option JSNumber) : ℝ :=
  match v with
  | some (.num q) => (q : ℝ)
  | _ => 0

/-! ## Geometry: `haversineDistance` and `calculateETA` (lines 9–31) -/

open Real in
/-- JavaScript `Math.atan2 y x` for real arguments. -/
noncomputable def atan2 (y x : ℝ) : ℝ :=
  if 0 < x then arctan (y / x)
  else if x < 0 then
    (if y < 0 then arctan (y / x) - π else arctan (y / x) + π)
  else
    (if 0 < y then π / 2 else if y < 0 then -(π / 2) else 0)

/-- `haversineDistance` (lines 9–20): great-circle distance in km between
two latitude/longitude points, Earth radius 6371 km. -/
noncomputable def haversineDistance (lat1 lon1 lat2 lon2 : ℝ) : ℝ :=
  let R : ℝ := 6371
  let dLat := (lat2 - lat1) * Real.pi / 180
  let dLon := (lon2 - lon1) * Real.pi / 180
  let a :=
    Real.sin (dLat / 2) * Real.sin (dLat / 2) +
      Real.cos (lat1 * Real.pi / 180) * Real.cos (lat2 * Real.pi / 180) *
        Real.sin (dLon / 2) * Real.sin (dLon / 2)
  R * 2 * atan2 (Real.sqrt a) (Real.sqrt (1 - a))

/-- JavaScript `Math.round`: round half towards `+∞`. -/
noncomputable def jsRound (x : ℝ) : ℤ := ⌊x + 1 / 2⌋

/-- `Math.round(x * 100) / 100`: round to two decimal places. -/
noncomputable def round2 (x : ℝ) : ℝ := (jsRound (x * 100) : ℝ) / 100

/-- Result record of `calculateETA`. -/
structure ETAResult where
  distanceKm : ℝ
  etaMinutes : ℤ

/-- Body of `calculateETA` after the distance has been computed
(lines 25–30): effective-speed fallback, then rounding.  Note that
`etaMinutes` is computed from the *unrounded* distance. -/
noncomputable def etaFromDistance (distance speedKmh : ℝ) : ETAResult :=
  let effectiveSpeed := if speedKmh > 5 then speedKmh else 20
  let timeHours := distance / effectiveSpeed
  { distanceKm := round2 distance
    etaMinutes := jsRound (timeHours * 60) }

/-- `calculateETA` (lines 23–31). -/
noncomputable def calculateETA (busLat busLon stopLat stopLon speedKmh : ℝ) : ETAResult :=
  etaFromDistance (haversineDistance busLat busLon stopLat stopLon) speedKmh

/-- Walking time at 5 km/h with ceiling (line 93):
`Math.ceil((walkingDistanceKm / 5) * 60)`. -/
noncomputable def walkingMinutesOfKm (walkingDistanceKm : ℝ) : ℤ :=
  ⌈walkingDistanceKm / 5 * 60⌉

/-! ## Stable sorting by an integer key

Both `.sort((a, b) => a.order - b.order)` (line 135) and
`.sort((a, b) => a.etaMinutes - b.etaMinutes)` (line 165) sort ascending by
an integer-valued key.  `Array.prototype.sort` is stable (ECMAScript 2019),
so both are modelled by a stable insertion sort on the key. -/

/-- Insert `x` (an earlier input element) into the already-sorted list of
later elements: `x` goes before the first element whose key is not smaller,
which keeps equal-key elements in input order. -/
def insertByKey (k : α → ℤ) (x : α) : List α → List α
  | [] => [x]
  | y :: ys => if k x ≤ k y then x :: y :: ys else y :: insertByKey k x ys

/-- Stable insertion sort ascending by an integer key. -/
def sortByKey (k : α → ℤ) : List α → List α
  | [] => []
  | x :: xs => insertByKey k x (sortByKey k xs)

/-! ## Data model (Mongoose documents, fully populated) -/

/-- A GeoJSON point: `coordinates` is `[longitude, latitude]`. -/
structure GeoPoint where
  lon : ℝ
  lat : ℝ

/-- A populated `stops.stop` subdocument of a route (`Stop` model).
`location` is optional: the polyline filter (line 134) and the target lookup
(line 116) guard against unresolved/incomplete stop records. -/
structure StopRef where
  id : String
  name : String
  stopCode : String
  location : Option GeoPoint

/-- One entry of a route's ordered stop list (`routeStopSchema`):
a stop reference (possibly unresolved) and its `order`. -/
structure RouteStopEntry where
  stop : Option StopRef
  order : ℤ

/-- A populated `Route` document. `stops` is optional to mirror the
`!route.stops` guard on line 113. -/
structure RouteDoc where
  name : String
  routeNumber : String
  stops : Option (List RouteStopEntry)

/-- A candidate `Bus` document (already filtered to `isActive: true` and to
routes serving the stop by the database query on lines 101–107).  `route` is
optional to mirror the `!route` guard on line 113. -/
structure BusDoc where
  id : String
  busNumber : String
  busName : String
  route : Option RouteDoc
  driverName : Option String
  currentLocation : GeoPoint
  speed : ℝ
  nextStopIndex : ℤ
  lastUpdated : ℤ

/-- The scanned stop, found by `Stop.findById` (line 77); the handler has
already returned 404 when it is missing, so it is total here. -/
structure StopDoc where
  id : String
  name : String
  stopCode : String
  address : String
  location : GeoPoint

/-- One point of the rendered route polyline (lines 136–144). -/
structure PolylinePoint where
  name : String
  stopCode : String
  order : ℤ
  lat : ℝ
  lng : ℝ
  isScannedStop : Bool
  isPassed : Bool

/-- One element of the `busesWithETA` result list (lines 146–162). -/
structure BusResult where
  id : String
  busNumber : String
  busName : String
  routeName : String
  routeNumber : String
  driver : String
  currentLocation : GeoPoint
  speed : ℝ
  distanceKm : ℝ
  distanceToStop : ℝ
  etaMinutes : ℤ
  totalJourneyMinutes : ℤ
  lastUpdated : ℤ
  stopsAway : ℤ
  routePolyline : List PolylinePoint

/-- The `passenger` summary of the response (line 177). -/
structure PassengerInfo where
  lat : ℝ
  lng : ℝ
  walkingDistanceKm : ℝ
  walkingMinutes : ℤ

/-- The whole response body of `GET /api/buses/stop/:stopId` (lines 167–180). -/
structure ArrivalsResult where
  stopId : String
  stopName : String
  stopCode : String
  address : String
  stopLat : ℝ
  stopLng : ℝ
  passenger : Option PassengerInfo
  buses : List BusResult

/-! ## The per-bus pipeline and the orchestrator (lines 75–184) -/

/-- Predicate of the target-stop lookup (lines 115–117):
`s.stop && s.stop._id.toString() === req.params.stopId`. -/
def isTargetEntry (stopId : String) (e : RouteStopEntry) : Bool :=
  match e.stop with
  | some st => st.id == stopId
  | none => false

/-- Filter of the polyline construction (line 134):
`s.stop && s.stop.location`. -/
def entryHasCoords (e : RouteStopEntry) : Bool :=
  match e.stop with
  | some st => st.location.isSome
  | none => false

/-- The per-stop projection of the polyline map (lines 136–143).  The final
branch is unreachable after the `entryHasCoords` filter (the JavaScript code
dereferences unconditionally there). -/
def toPolylinePoint (stopId : String) (nextStopIndex : ℤ) (e : RouteStopEntry) :
    PolylinePoint :=
  match e.stop with
  | some st =>
    match st.location with
    | some loc =>
      { name := st.name
        stopCode := st.stopCode
        order := e.order
        lat := loc.lat
        lng := loc.lon
        isScannedStop := st.id == stopId
        isPassed := decide (e.order < nextStopIndex) }
    | none =>
      { name := "", stopCode := "", order := e.order, lat := 0, lng := 0
        isScannedStop := false, isPassed := decide (e.order < nextStopIndex) }
  | none =>
    { name := "", stopCode := "", order := e.order, lat := 0, lng := 0
      isScannedStop := false, isPassed := decide (e.order < nextStopIndex) }

/-- `bus.driver?.name || 'Unknown'` (line 152): JavaScript `||` also treats
an empty name as falsy. -/
def driverDisplay (d : Option String) : String :=
  match d with
  | some n => if n = "" then "Unknown" else n
  | none => "Unknown"

/-- One iteration of the `for (const bus of buses)` loop (lines 111–163),
with the loop-invariant context (stop, parsed passenger parameters) hoisted
into arguments.  Returns `none` exactly when the iteration hits a `continue`;
all values derived from the request before the loop are recomputed here from
the same pure inputs, so this is the same per-bus computation. -/
noncomputable def evalBusIn (stop : StopDoc) (passengerLat passengerLng : Option String)
    (bus : BusDoc) : Option BusResult :=
  let stopLat := stop.location.lat
  let stopLon := stop.location.lon
  let hasPassenger := hasPassengerOf passengerLat passengerLng
  let pLatR := jsRealOf (pCoordOf passengerLat)
  let pLngR := jsRealOf (pCoordOf passengerLng)
  let walkingDistanceKm :=
    if hasPassenger then round2 (haversineDistance pLatR pLngR stopLat stopLon) else 0
  let walkingMinutes : ℤ :=
    if hasPassenger then walkingMinutesOfKm walkingDistanceKm else 0
  let etaTargetLat := if hasPassenger then pLatR else stopLat
  let etaTargetLon := if hasPassenger then pLngR else stopLon
  match bus.route with
  | none => none
  | some route =>
    match route.stops with
    | none => none
    | some stops =>
      match stops.find? (isTargetEntry stop.id) with
      | none => none
      | some targetStopInRoute =>
        if targetStopInRoute.order < bus.nextStopIndex then none
        else
          let busLat := bus.currentLocation.lat
          let busLon := bus.currentLocation.lon
          let eta := calculateETA busLat busLon etaTargetLat etaTargetLon bus.speed
          let distanceToStop := round2 (haversineDistance busLat busLon stopLat stopLon)
          let totalJourneyMinutes :=
            if hasPassenger then eta.etaMinutes + walkingMinutes else eta.etaMinutes
          let routePolyline :=
            (sortByKey (·.order) (stops.filter entryHasCoords)).map
              (toPolylinePoint stop.id bus.nextStopIndex)
          some
            { id := bus.id
              busNumber := bus.busNumber
              busName := bus.busName
              routeName := route.name
              routeNumber := route.routeNumber
              driver := driverDisplay bus.driverName
              currentLocation := bus.currentLocation
              speed := bus.speed
              distanceKm := eta.distanceKm
              distanceToStop := distanceToStop
              etaMinutes := eta.etaMinutes
              totalJourneyMinutes := totalJourneyMinutes
              lastUpdated := bus.lastUpdated
              stopsAway := targetStopInRoute.order - bus.nextStopIndex
              routePolyline := routePolyline }

/-- The whole `GET /api/buses/stop/:stopId` handler after the stop and the
candidate buses have been fetched (lines 80–180): parse the optional
passenger coordinates, evaluate every candidate bus (silently skipping the
excluded ones), sort ascending by `etaMinutes`, and assemble the response. -/
noncomputable def stopArrivalQuery (stop : StopDoc) (passengerLat passengerLng : Option String)
    (buses : List BusDoc) : ArrivalsResult :=
  let stopLat := stop.location.lat
  let stopLon := stop.location.lon
  let hasPassenger := hasPassengerOf passengerLat passengerLng
  let pLatR := jsRealOf (pCoordOf passengerLat)
  let pLngR := jsRealOf (pCoordOf passengerLng)
  let walkingDistanceKm :=
    if hasPassenger then round2 (haversineDistance pLatR pLngR stopLat stopLon) else 0
  let walkingMinutes : ℤ :=
    if hasPassenger then walkingMinutesOfKm walkingDistanceKm else 0
  let busesWithETA := buses.filterMap (evalBusIn stop passengerLat passengerLng)
  { stopId := stop.id
    stopName := stop.name
    stopCode := stop.stopCode
    address := stop.address
    stopLat := stopLat
    stopLng := stopLon
    passenger :=
      if hasPassenger then
        some { lat := pLatR, lng := pLngR, walkingDistanceKm := walkingDistanceKm
               walkingMinutes := walkingMinutes }
      else none
    buses := sortByKey (·.etaMinutes) busesWithETA }

/-! ## Properties of the stable sort -/

theorem insertByKey_perm (k : α → ℤ) (x : α) (l : List α) :
    (insertByKey k x l).Perm (x :: l) := by
  induction l with
  | nil => exact List.Perm.refl _
  | cons y ys ih =>
    unfold insertByKey
    split
    · exact List.Perm.refl _
    · exact (ih.cons y).trans (List.Perm.swap x y ys)

theorem sortByKey_perm (k : α → ℤ) (l : List α) : (sortByKey k l).Perm l := by
  induction l with
  | nil => exact List.Perm.refl _
  | cons x xs ih =>
    exact (insertByKey_perm k x (sortByKey k xs)).trans (ih.cons x)

theorem insertByKey_pairwise (k : α → ℤ) (x : α) (l : List α)
    (h : l.Pairwise (fun a b => k a ≤ k b)) :
    (insertByKey k x l).Pairwise (fun a b => k a ≤ k b) := by
  induction l with
  | nil => simp [insertByKey]
  | cons y ys ih =>
    rw [List.pairwise_cons] at h
    unfold insertByKey
    split
    case isTrue hxy =>
      rw [List.pairwise_cons]
      refine ⟨?_, List.pairwise_cons.mpr h⟩
      intro z hz
      rcases List.mem_cons.mp hz with hzy | hzys
      · exact hzy ▸ hxy
      · exact le_trans hxy (h.1 z hzys)
    case isFalse hxy =>
      rw [List.pairwise_cons]
      refine ⟨?_, ih h.2⟩
      intro z hz
      have hz' : z ∈ x :: ys := (insertByKey_perm k x ys).mem_iff.mp hz
      rcases List.mem_cons.mp hz' with hzx | hzys
      · exact hzx ▸ le_of_lt (lt_of_not_le hxy)
      · exact h.1 z hzys

theorem sortByKey_pairwise (k : α → ℤ) (l : List α) :
    (sortByKey k l).Pairwise (fun a b => k a ≤ k b) := by
  induction l with
  | nil => simp [sortByKey]
  | cons x xs ih => exact insertByKey_pairwise k x _ ih

theorem filter_insertByKey_eq_key (k : α → ℤ) (x : α) (m : ℤ) (hx : k x = m)
    (l : List α) :
    (insertByKey k x l).filter (fun a => k a == m) =
      x :: l.filter (fun a => k a == m) := by
  induction l with
  | nil => simp [insertByKey, List.filter_cons, hx]
  | cons y ys ih =>
    unfold insertByKey
    split
    case isTrue hxy => simp [List.filter_cons, hx]
    case isFalse hxy =>
      have hy : ¬ (k y = m) := by
        intro hkm
        exact hxy (le_of_eq (hx.trans hkm.symm))
      simp only [List.filter_cons, beq_iff_eq, hy, ite_false, if_false]
      exact ih

theorem filter_insertByKey_ne_key (k : α → ℤ) (x : α) (m : ℤ) (hx : ¬ k x = m)
    (l : List α) :
    (insertByKey k x l).filter (fun a => k a == m) =
      l.filter (fun a => k a == m) := by
  induction l with
  | nil => simp [insertByKey, List.filter_cons, hx]
  | cons y ys ih =>
    unfold insertByKey
    split
    case isTrue hxy => simp [List.filter_cons, hx]
    case isFalse hxy =>
      by_cases hy : k y = m
      · simp only [List.filter_cons, beq_iff_eq, hy, ite_true, if_true]
        rw [ih]
      · simp only [List.filter_cons, beq_iff_eq, hy, ite_false, if_false]
        exact ih

/-- Stability of the sort: restricting the output to any single key value
reproduces the input order of the elements with that key. -/
theorem sortByKey_filter (k : α → ℤ) (l : List α) (m : ℤ) :
    (sortByKey k l).filter (fun a => k a == m) = l.filter (fun a => k a == m) := by
  induction l with
  | nil => rfl
  | cons x xs ih =>
    unfold sortByKey
    by_cases hx : k x = m
    · rw [filter_insertByKey_eq_key k x m hx, ih]
      simp [List.filter_cons, hx]
    · rw [filter_insertByKey_ne_key k x m hx, ih]
      simp [List.filter_cons, hx]

/-! ## Properties of `haversineDistance` -/

theorem arctan_nonneg_of_nonneg {x : ℝ} (h : 0 ≤ x) : 0 ≤ Real.arctan x := by
  have := Real.arctan_strictMono.monotone h
  rwa [Real.arctan_zero] at this

theorem atan2_nonneg (y x : ℝ) (hy : 0 ≤ y) : 0 ≤ atan2 y x := by
  unfold atan2
  split
  case isTrue hx =>
    exact arctan_nonneg_of_nonneg (div_nonneg hy (le_of_lt hx))
  case isFalse hx =>
    split
    case isTrue hx' =>
      rw [if_neg (not_lt.mpr hy)]
      have h1 := Real.neg_pi_div_two_lt_arctan (y / x)
      have h2 := Real.pi_pos
      linarith
    case isFalse hx' =>
      split
      · have := Real.pi_pos; linarith
      · rw [if_neg (not_lt.mpr hy)]

theorem haversineDistance_nonneg (lat1 lon1 lat2 lon2 : ℝ) :
    0 ≤ haversineDistance lat1 lon1 lat2 lon2 := by
  simp only [haversineDistance]
  have h := atan2_nonneg (Real.sqrt
    (Real.sin ((lat2 - lat1) * Real.pi / 180 / 2) *
        Real.sin ((lat2 - lat1) * Real.pi / 180 / 2) +
      Real.cos (lat1 * Real.pi / 180) * Real.cos (lat2 * Real.pi / 180) *
        Real.sin ((lon2 - lon1) * Real.pi / 180 / 2) *
        Real.sin ((lon2 - lon1) * Real.pi / 180 / 2)))
    (Real.sqrt (1 -
      (Real.sin ((lat2 - lat1) * Real.pi / 180 / 2) *
          Real.sin ((lat2 - lat1) * Real.pi / 180 / 2) +
        Real.cos (lat1 * Real.pi / 180) * Real.cos (lat2 * Real.pi / 180) *
          Real.sin ((lon2 - lon1) * Real.pi / 180 / 2) *
          Real.sin ((lon2 - lon1) * Real.pi / 180 / 2))))
    (Real.sqrt_nonneg _)
  nlinarith [h]

theorem haversineDistance_comm (lat1 lon1 lat2 lon2 : ℝ) :
    haversineDistance lat1 lon1 lat2 lon2 = haversineDistance lat2 lon2 lat1 lon1 := by
  simp only [haversineDistance]
  have ha :
      Real.sin ((lat1 - lat2) * Real.pi / 180 / 2) *
          Real.sin ((lat1 - lat2) * Real.pi / 180 / 2) +
        Real.cos (lat2 * Real.pi / 180) * Real.cos (lat1 * Real.pi / 180) *
          Real.sin ((lon1 - lon2) * Real.pi / 180 / 2) *
          Real.sin ((lon1 - lon2) * Real.pi / 180 / 2) =
      Real.sin ((lat2 - lat1) * Real.pi / 180 / 2) *
          Real.sin ((lat2 - lat1) * Real.pi / 180 / 2) +
        Real.cos (lat1 * Real.pi / 180) * Real.cos (lat2 * Real.pi / 180) *
          Real.sin ((lon2 - lon1) * Real.pi / 180 / 2) *
          Real.sin ((lon2 - lon1) * Real.pi / 180 / 2) := by
    rw [show (lat1 - lat2) * Real.pi / 180 / 2 =
          -((lat2 - lat1) * Real.pi / 180 / 2) by ring,
        show (lon1 - lon2) * Real.pi / 180 / 2 =
          -((lon2 - lon1) * Real.pi / 180 / 2) by ring,
        Real.sin_neg, Real.sin_neg]
    ring
  rw [ha]

theorem haversineDistance_self (lat lon : ℝ) :
    haversineDistance lat lon lat lon = 0 := by
  simp only [haversineDistance]
  rw [show (lat - lat) * Real.pi / 180 / 2 = 0 by ring,
      show (lon - lon) * Real.pi / 180 / 2 = 0 by ring]
  simp [Real.sin_zero, atan2, Real.arctan_zero]

/-- Along the equator the haversine formula is exact: the distance between
longitudes `0` and `t` (for `0 ≤ t < 180`) is `6371 · t · π / 180` km. -/
theorem haversineDistance_equator (t : ℝ) (h0 : 0 ≤ t) (h1 : t < 180) :
    haversineDistance 0 0 0 t = 6371 * (t * Real.pi / 180) := by
  have hπ := Real.pi_pos
  have hθ0 : 0 ≤ t * Real.pi / 360 := by positivity
  have hθhalf : t * Real.pi / 360 < Real.pi / 2 := by nlinarith
  have hcos : 0 < Real.cos (t * Real.pi / 360) :=
    Real.cos_pos_of_mem_Ioo ⟨by linarith, hθhalf⟩
  have hsin : 0 ≤ Real.sin (t * Real.pi / 360) :=
    Real.sin_nonneg_of_nonneg_of_le_pi hθ0 (by linarith)
  simp only [haversineDistance]
  rw [show ((0:ℝ) - 0) * Real.pi / 180 / 2 = 0 by ring,
      show ((t:ℝ) - 0) * Real.pi / 180 / 2 = t * Real.pi / 360 by ring,
      show (0:ℝ) * Real.pi / 180 = 0 by ring]
  simp only [Real.sin_zero, Real.cos_zero, mul_zero, zero_mul, zero_add, one_mul]
  rw [Real.sqrt_mul_self hsin]
  have hone : 1 - Real.sin (t * Real.pi / 360) * Real.sin (t * Real.pi / 360) =
      Real.cos (t * Real.pi / 360) * Real.cos (t * Real.pi / 360) := by
    have h := Real.sin_sq_add_cos_sq (t * Real.pi / 360)
    nlinarith [h]
  rw [hone, Real.sqrt_mul_self (le_of_lt hcos)]
  unfold atan2
  rw [if_pos hcos, ← Real.tan_eq_sin_div_cos,
      Real.arctan_tan (by linarith) hθhalf]
  ring

/-! ## Claim theorems -/

/-- C7 (amended): `haversineDistance` is symmetric, always nonnegative, and
`distance(a, a) = 0`; however zero distance does not imply equal coordinates
(see the counterexample), so the "only if" direction of the original claim
is dropped. -/
theorem C7_haversine_symm_nonneg_self (lat1 lon1 lat2 lon2 : ℝ) :
    haversineDistance lat1 lon1 lat2 lon2 = haversineDistance lat2 lon2 lat1 lon1 ∧
    0 ≤ haversineDistance lat1 lon1 lat2 lon2 ∧
    haversineDistance lat1 lon1 lat1 lon1 = 0 :=
  ⟨haversineDistance_comm lat1 lon1 lat2 lon2,
   haversineDistance_nonneg lat1 lon1 lat2 lon2,
   haversineDistance_self lat1 lon1⟩

/-- C7 counterexample: the coordinates `(0, 0)` and `(0, 360)` are distinct
but at haversine distance `0` (the longitude difference of 360° wraps to a
full circle), so `distance(a,b) = 0` does not imply `a = b`. -/
theorem C7_zero_at_unequal_coords :
    haversineDistance 0 0 0 360 = 0 ∧ (360 : ℝ) ≠ 0 := by
  constructor
  · simp only [haversineDistance]
    rw [show ((0:ℝ) - 0) * Real.pi / 180 / 2 = 0 by ring,
        show ((360:ℝ) - 0) * Real.pi / 180 / 2 = Real.pi by ring,
        show (0:ℝ) * Real.pi / 180 = 0 by ring]
    simp [Real.sin_zero, Real.sin_pi, atan2, Real.arctan_zero]
  · norm_num

/-- C2 (amended): `calculateETA` returns `distanceKm` equal to the haversine
distance rounded to 2 decimals, and `etaMinutes` equal to
`round(d / effectiveSpeed * 60)` computed from the *unrounded* haversine
distance `d` (not from the rounded `distanceKm`); distance 0 yields
`etaMinutes = 0`, and the computation is total. -/
theorem C2_eta_formula (busLat busLon stopLat stopLon speedKmh : ℝ) :
    calculateETA busLat busLon stopLat stopLon speedKmh =
      { distanceKm := round2 (haversineDistance busLat busLon stopLat stopLon)
        etaMinutes := jsRound (haversineDistance busLat busLon stopLat stopLon /
          (if speedKmh > 5 then speedKmh else 20) * 60) } ∧
    (haversineDistance busLat busLon stopLat stopLon = 0 →
      (calculateETA busLat busLon stopLat stopLon speedKmh).etaMinutes = 0) := by
  constructor
  · rfl
  · intro h
    simp only [calculateETA, etaFromDistance, h, zero_div, zero_mul, jsRound, zero_add]
    norm_num [Int.floor_eq_iff]

/-- Witness for C2: at coinciding endpoints the distance is 0 and
`etaMinutes = 0`. -/
theorem C2_eta_formula_witness :
    calculateETA 1 2 1 2 7 =
      { distanceKm := round2 (haversineDistance 1 2 1 2)
        etaMinutes := jsRound (haversineDistance 1 2 1 2 /
          (if (7:ℝ) > 5 then 7 else 20) * 60) } ∧
    (calculateETA 1 2 1 2 7).etaMinutes = 0 :=
  ⟨(C2_eta_formula 1 2 1 2 7).1,
   (C2_eta_formula 1 2 1 2 7).2 (haversineDistance_self 1 2)⟩

/-- C2 counterexample: with the bus at `(0, 0)`, the target at
`(0, 0.001322)` and speed 6 km/h, the code returns `etaMinutes = 1`
(computed from the raw distance ≈ 0.14700 km), while the claimed formula
`round(distanceKm / effectiveSpeed * 60)` applied to the 2-decimal-rounded
`distanceKm = 0.15` gives `round(1.5) = 2`. -/
theorem C2_eta_not_from_rounded_distance :
    (calculateETA 0 0 0 0.001322 6).etaMinutes = 1 ∧
    jsRound ((calculateETA 0 0 0 0.001322 6).distanceKm / 6 * 60) = 2 := by
  have hhav : haversineDistance 0 0 0 0.001322 = 6371 * (0.001322 * Real.pi / 180) :=
    haversineDistance_equator 0.001322 (by norm_num) (by norm_num)
  have hl := Real.pi_gt_d6
  have hu := Real.pi_lt_d6
  have hd100 : jsRound (haversineDistance 0 0 0 0.001322 * 100) = 15 := by
    unfold jsRound
    rw [hhav, Int.floor_eq_iff]
    constructor
    · push_cast; nlinarith
    · push_cast; nlinarith
  have heta : (calculateETA 0 0 0 0.001322 6).etaMinutes = 1 := by
    show (etaFromDistance (haversineDistance 0 0 0 0.001322) 6).etaMinutes = 1
    unfold etaFromDistance jsRound
    rw [if_pos (by norm_num : (6:ℝ) > 5), hhav, Int.floor_eq_iff]
    constructor
    · push_cast; nlinarith
    · push_cast; nlinarith
  refine ⟨heta, ?_⟩
  have hdk : (calculateETA 0 0 0 0.001322 6).distanceKm = 15 / 100 := by
    show (etaFromDistance (haversineDistance 0 0 0 0.001322) 6).distanceKm = 15 / 100
    unfold etaFromDistance round2
    rw [hd100]
    norm_num
  rw [hdk]
  unfold jsRound
  rw [Int.floor_eq_iff]
  constructor
  · push_cast; norm_num
  · push_cast; norm_num

/-- C4: any reported speed ≤ 5 km/h engages the 20 km/h fallback and yields
exactly the result of a 20 km/h call; any reported speed > 5 km/h is used
as-is; and over a 20 km distance at speed 40 the ETA is 30 minutes. -/
theorem C4_speed_fallback (busLat busLon stopLat stopLon s t : ℝ)
    (hs : s ≤ 5) (ht : 5 < t) :
    calculateETA busLat busLon stopLat stopLon s =
        calculateETA busLat busLon stopLat stopLon 20 ∧
    (calculateETA busLat busLon stopLat stopLon t).etaMinutes =
        jsRound (haversineDistance busLat busLon stopLat stopLon / t * 60) ∧
    (etaFromDistance 20 40).etaMinutes = 30 := by
  refine ⟨?_, ?_, ?_⟩
  · unfold calculateETA etaFromDistance
    rw [if_neg (not_lt.mpr hs), if_pos (by norm_num : (20:ℝ) > 5)]
  · unfold calculateETA etaFromDistance
    rw [if_pos ht]
  · unfold etaFromDistance jsRound
    rw [if_pos (by norm_num : (40:ℝ) > 5)]
    norm_num [Int.floor_eq_iff]

/-- Witness for C4: speed 3 (≤ 5) behaves exactly like speed 20, speed 40 is
used as-is, and 20 km at 40 km/h gives 30 minutes. -/
theorem C4_speed_fallback_witness :
    calculateETA 13 80 14 81 3 = calculateETA 13 80 14 81 20 ∧
    (calculateETA 13 80 14 81 40).etaMinutes =
        jsRound (haversineDistance 13 80 14 81 / 40 * 60) ∧
    (etaFromDistance 20 40).etaMinutes = 30 :=
  C4_speed_fallback 13 80 14 81 3 40 (by norm_num) (by norm_num)

/-- C1: a candidate bus appears in the result iff its route resolves with a
stop list, the target stop is found in that list, and the found entry's
`order` is at least the bus's `nextStopIndex`; an included bus reports
`stopsAway = order − nextStopIndex ≥ 0`; and a skipped bus leaves the
results of the remaining buses unchanged (the query never fails). -/
theorem C1_inclusion_filter (stop : StopDoc) (latP lngP : Option String) (bus : BusDoc) :
    ((evalBusIn stop latP lngP bus).isSome = true ↔
      ∃ route stops e, bus.route = some route ∧ route.stops = some stops ∧
        stops.find? (isTargetEntry stop.id) = some e ∧ bus.nextStopIndex ≤ e.order) ∧
    (∀ r, evalBusIn stop latP lngP bus = some r →
      ∃ route stops e, bus.route = some route ∧ route.stops = some stops ∧
        stops.find? (isTargetEntry stop.id) = some e ∧
        r.stopsAway = e.order - bus.nextStopIndex ∧ 0 ≤ r.stopsAway) ∧
    (∀ pre post, evalBusIn stop latP lngP bus = none →
      (stopArrivalQuery stop latP lngP (pre ++ bus :: post)).buses =
        (stopArrivalQuery stop latP lngP (pre ++ post)).buses) := by
  refine ⟨?_, ?_, ?_⟩
  · rcases hroute : bus.route with _ | route
    · simp [evalBusIn, hroute]
    · rcases hstops : route.stops with _ | stops
      · simp [evalBusIn, hroute, hstops]
      · rcases hfind : stops.find? (isTargetEntry stop.id) with _ | e
        · simp [evalBusIn, hroute, hstops, hfind]
        · by_cases hord : e.order < bus.nextStopIndex
          · simp only [evalBusIn, hroute, hstops, hfind, if_pos hord,
              Option.isSome_none, Bool.false_eq_true, false_iff]
            rintro ⟨route', stops', e', hr', hs', hf', hord'⟩
            rw [Option.some.injEq] at hr'
            subst hr'
            rw [hstops, Option.some.injEq] at hs'
            subst hs'
            rw [hfind, Option.some.injEq] at hf'
            subst hf'
            omega
          · simp only [evalBusIn, hroute, hstops, hfind, if_neg hord,
              Option.isSome_some, true_iff]
            exact ⟨route, stops, e, rfl, hstops, hfind, by omega⟩
  · intro r hr
    rcases hroute : bus.route with _ | route
    · simp [evalBusIn, hroute] at hr
    · rcases hstops : route.stops with _ | stops
      · simp [evalBusIn, hroute, hstops] at hr
      · rcases hfind : stops.find? (isTargetEntry stop.id) with _ | e
        · simp [evalBusIn, hroute, hstops, hfind] at hr
        · by_cases hord : e.order < bus.nextStopIndex
          · simp [evalBusIn, hroute, hstops, hfind, hord] at hr
          · refine ⟨route, stops, e, rfl, hstops, hfind, ?_, ?_⟩
            · simp only [evalBusIn, hroute, hstops, hfind, if_neg hord,
                Option.some.injEq] at hr
              rw [← hr]
            · simp only [evalBusIn, hroute, hstops, hfind, if_neg hord,
                Option.some.injEq] at hr
              rw [← hr]
              simp only []
              omega
  · intro pre post h
    simp only [stopArrivalQuery, List.filterMap_append, List.filterMap_cons, h]

/-- Scenario for the witnesses: a stop `S`, a route whose stop list is
`[A(0), S(1), B(2)]`, a bus with `nextStopIndex = 1`, and a bus with an
unresolvable route. -/
def wStopA : StopRef :=
  { id := "A", name := "Stop A", stopCode := "A1", location := some ⟨1, 1⟩ }

def wStopS : StopRef :=
  { id := "S", name := "Stop S", stopCode := "S1", location := some ⟨2, 2⟩ }

def wStopB : StopRef :=
  { id := "B", name := "Stop B", stopCode := "B1", location := some ⟨3, 3⟩ }

def wRoute : RouteDoc :=
  { name := "Route 42", routeNumber := "42"
    stops := some [⟨some wStopA, 0⟩, ⟨some wStopS, 1⟩, ⟨some wStopB, 2⟩] }

def wStop : StopDoc :=
  { id := "S", name := "Stop S", stopCode := "S1", address := "", location := ⟨2, 2⟩ }

def wBus : BusDoc :=
  { id := "bus1", busNumber := "TN-01", busName := "Express"
    route := some wRoute, driverName := some "Asha"
    currentLocation := ⟨0, 0⟩, speed := 30, nextStopIndex := 1, lastUpdated := 0 }

def wBusNoRoute : BusDoc :=
  { id := "bus2", busNumber := "TN-02", busName := "Ghost"
    route := none, driverName := none
    currentLocation := ⟨0, 0⟩, speed := 0, nextStopIndex := 0, lastUpdated := 0 }

/-- Witness for C1: in the concrete scenario, the bus targeting `S` (order 1,
`nextStopIndex` 1) is included, and a bus with an unresolvable route is
skipped without affecting the rest of the query. -/
theorem C1_inclusion_filter_witness :
    (evalBusIn wStop none none wBus).isSome = true ∧
    (stopArrivalQuery wStop none none [wBusNoRoute, wBus]).buses =
      (stopArrivalQuery wStop none none [wBus]).buses := by
  refine ⟨?_, ?_⟩
  · exact (C1_inclusion_filter wStop none none wBus).1.mpr
      ⟨wRoute, [⟨some wStopA, 0⟩, ⟨some wStopS, 1⟩, ⟨some wStopB, 2⟩],
        ⟨some wStopS, 1⟩, rfl, rfl, rfl, by norm_num [wBus]⟩
  · exact (C1_inclusion_filter wStop none none wBusNoRoute).2.2 [] [wBus] rfl

theorem toPolylinePoint_order (sid : String) (n : ℤ) (e : RouteStopEntry) :
    (toPolylinePoint sid n e).order = e.order := by
  rcases e with ⟨stopOpt, order⟩
  rcases stopOpt with _ | st
  · rfl
  · rcases st with ⟨i, nm, c, locOpt⟩
    rcases locOpt with _ | loc <;> rfl

theorem toPolylinePoint_isPassed (sid : String) (n : ℤ) (e : RouteStopEntry) :
    (toPolylinePoint sid n e).isPassed = decide (e.order < n) := by
  rcases e with ⟨stopOpt, order⟩
  rcases stopOpt with _ | st
  · rfl
  · rcases st with ⟨i, nm, c, locOpt⟩
    rcases locOpt with _ | loc <;> rfl

/-- The polyline of an included bus, extracted from `evalBusIn`. -/
theorem evalBusIn_polyline (stop : StopDoc) (latP lngP : Option String) (bus : BusDoc)
    (route : RouteDoc) (stops : List RouteStopEntry) (r : BusResult)
    (hroute : bus.route = some route) (hstops : route.stops = some stops)
    (hr : evalBusIn stop latP lngP bus = some r) :
    r.routePolyline =
      (sortByKey (·.order) (stops.filter entryHasCoords)).map
        (toPolylinePoint stop.id bus.nextStopIndex) := by
  rcases hfind : stops.find? (isTargetEntry stop.id) with _ | e
  · simp [evalBusIn, hroute, hstops, hfind] at hr
  · by_cases hord : e.order < bus.nextStopIndex
    · simp [evalBusIn, hroute, hstops, hfind, hord] at hr
    · simp only [evalBusIn, hroute, hstops, hfind, if_neg hord,
        Option.some.injEq] at hr
      rw [← hr]

/-- C9: the polyline of an included bus consists of exactly the route's
entries with a resolvable stop and coordinates, is sorted ascending by
`order`, marks an entry as passed iff its `order` is below the bus's
`nextStopIndex` (the same snapshot used for inclusion), and marks an entry
as the scanned stop iff its stop is the target stop. -/
theorem C9_polyline (stop : StopDoc) (latP lngP : Option String) (bus : BusDoc)
    (route : RouteDoc) (stops : List RouteStopEntry) (r : BusResult)
    (hroute : bus.route = some route) (hstops : route.stops = some stops)
    (hr : evalBusIn stop latP lngP bus = some r) :
    r.routePolyline.Perm
      ((stops.filter entryHasCoords).map
        (toPolylinePoint stop.id bus.nextStopIndex)) ∧
    r.routePolyline.Pairwise (fun a b => a.order ≤ b.order) ∧
    (∀ p ∈ r.routePolyline, p.isPassed = decide (p.order < bus.nextStopIndex)) ∧
    (∀ e ∈ stops, entryHasCoords e = true →
      ((toPolylinePoint stop.id bus.nextStopIndex e).isScannedStop = true ↔
        ∃ st, e.stop = some st ∧ st.id = stop.id)) := by
  have hpoly := evalBusIn_polyline stop latP lngP bus route stops r hroute hstops hr
  refine ⟨?_, ?_, ?_, ?_⟩
  · rw [hpoly]
    exact (sortByKey_perm (·.order) (stops.filter entryHasCoords)).map _
  · rw [hpoly, List.pairwise_map]
    have h := sortByKey_pairwise (·.order) (stops.filter entryHasCoords)
    refine h.imp ?_
    intro a b hab
    rwa [toPolylinePoint_order, toPolylinePoint_order]
  · intro p hp
    rw [hpoly] at hp
    rcases List.mem_map.mp hp with ⟨e, he, rfl⟩
    rw [toPolylinePoint_isPassed, toPolylinePoint_order]
  · intro e he hc
    rcases e with ⟨stopOpt, order⟩
    rcases stopOpt with _ | st
    · simp [entryHasCoords] at hc
    · rcases st with ⟨i, nm, c, locOpt⟩
      rcases locOpt with _ | loc
      · simp [entryHasCoords] at hc
      · simp [toPolylinePoint, beq_iff_eq]

/-- Witness result record for C9: the evaluation of the scenario bus. -/
noncomputable def wResult : BusResult :=
  (evalBusIn wStop none none wBus).getD
    { id := "", busNumber := "", busName := "", routeName := "", routeNumber := ""
      driver := "", currentLocation := ⟨0, 0⟩, speed := 0, distanceKm := 0
      distanceToStop := 0, etaMinutes := 0, totalJourneyMinutes := 0
      lastUpdated := 0, stopsAway := 0, routePolyline := [] }

/-- Witness for C9 at the concrete scenario: route `[A(0), S(1), B(2)]`,
bus with `nextStopIndex = 1`. -/
theorem C9_polyline_witness :
    wResult.routePolyline.Perm
      (([⟨some wStopA, 0⟩, ⟨some wStopS, 1⟩,
          (⟨some wStopB, 2⟩ : RouteStopEntry)].filter entryHasCoords).map
        (toPolylinePoint "S" 1)) ∧
    wResult.routePolyline.Pairwise (fun a b => a.order ≤ b.order) ∧
    (∀ p ∈ wResult.routePolyline, p.isPassed = decide (p.order < 1)) :=
  have h := C9_polyline wStop none none wBus wRoute
    [⟨some wStopA, 0⟩, ⟨some wStopS, 1⟩, ⟨some wStopB, 2⟩] wResult rfl rfl rfl
  ⟨h.1, h.2.1, h.2.2.1⟩

/-- A minimal result record with a given id and `etaMinutes`, used to state
the ranking example of the spec. -/
def exBusResult (i : String) (eta : ℤ) : BusResult :=
  { id := i, busNumber := i, busName := i, routeName := "", routeNumber := ""
    driver := "", currentLocation := ⟨0, 0⟩, speed := 0, distanceKm := 0
    distanceToStop := 0, etaMinutes := eta, totalJourneyMinutes := eta
    lastUpdated := 0, stopsAway := 0, routePolyline := [] }

/-- C3: the returned bus list is sorted ascending by the primary
`etaMinutes`; restricted to any single `etaMinutes` value it reproduces the
input order of the included buses (stable ties); and on included buses with
`etaMinutes = [12, 5, 5]` the output starts with the first 5 and keeps the
two 5s in input order. -/
theorem C3_ranking (stop : StopDoc) (latP lngP : Option String) (buses : List BusDoc) :
    ((stopArrivalQuery stop latP lngP buses).buses).Pairwise
      (fun a b => a.etaMinutes ≤ b.etaMinutes) ∧
    (∀ m : ℤ, ((stopArrivalQuery stop latP lngP buses).buses).filter
        (fun b => b.etaMinutes == m) =
      (buses.filterMap (evalBusIn stop latP lngP)).filter
        (fun b => b.etaMinutes == m)) ∧
    (sortByKey (·.etaMinutes)
        [exBusResult "first12" 12, exBusResult "second5" 5,
          exBusResult "third5" 5]).map BusResult.id =
      ["second5", "third5", "first12"] := by
  refine ⟨?_, ?_, ?_⟩
  · simpa only [stopArrivalQuery] using
      sortByKey_pairwise (fun b : BusResult => b.etaMinutes)
        (buses.filterMap (evalBusIn stop latP lngP))
  · intro m
    simpa only [stopArrivalQuery] using
      sortByKey_filter (fun b : BusResult => b.etaMinutes)
        (buses.filterMap (evalBusIn stop latP lngP)) m
  · rfl

/-- C5: for an included bus, when a valid (finite) passenger coordinate is
supplied the primary `distanceKm`/`etaMinutes` are computed bus → passenger
and `totalJourneyMinutes = etaMinutes + walkingMinutes`; with no passenger
they are computed bus → stop and `totalJourneyMinutes = etaMinutes`; and
`distanceToStop` is always bus → stop, independent of passenger presence. -/
theorem C5_eta_targeting (stop : StopDoc) (latP lngP : Option String) (bus : BusDoc)
    (r : BusResult) (la lo : ℚ)
    (hr : evalBusIn stop latP lngP bus = some r) :
    (hasPassengerOf latP lngP = true →
      pCoordOf latP = some (.num la) → pCoordOf lngP = some (.num lo) →
      r.distanceKm = (calculateETA bus.currentLocation.lat bus.currentLocation.lon
          ((la : ℝ)) ((lo : ℝ)) bus.speed).distanceKm ∧
      r.etaMinutes = (calculateETA bus.currentLocation.lat bus.currentLocation.lon
          ((la : ℝ)) ((lo : ℝ)) bus.speed).etaMinutes ∧
      r.totalJourneyMinutes = r.etaMinutes +
        walkingMinutesOfKm (round2 (haversineDistance ((la : ℝ)) ((lo : ℝ))
          stop.location.lat stop.location.lon))) ∧
    (hasPassengerOf latP lngP = false →
      r.distanceKm = (calculateETA bus.currentLocation.lat bus.currentLocation.lon
          stop.location.lat stop.location.lon bus.speed).distanceKm ∧
      r.etaMinutes = (calculateETA bus.currentLocation.lat bus.currentLocation.lon
          stop.location.lat stop.location.lon bus.speed).etaMinutes ∧
      r.totalJourneyMinutes = r.etaMinutes) ∧
    r.distanceToStop = round2 (haversineDistance bus.currentLocation.lat
      bus.currentLocation.lon stop.location.lat stop.location.lon) := by
  rcases hroute : bus.route with _ | route
  · simp [evalBusIn, hroute] at hr
  · rcases hstops : route.stops with _ | stops
    · simp [evalBusIn, hroute, hstops] at hr
    · rcases hfind : stops.find? (isTargetEntry stop.id) with _ | e
      · simp [evalBusIn, hroute, hstops, hfind] at hr
      · by_cases hord : e.order < bus.nextStopIndex
        · simp [evalBusIn, hroute, hstops, hfind, hord] at hr
        · simp only [evalBusIn, hroute, hstops, hfind, if_neg hord,
            Option.some.injEq] at hr
          subst hr
          refine ⟨?_, ?_, ?_⟩
          · intro hP hla hlo
            simp only [hP, hla, hlo, jsRealOf, if_true]
            exact ⟨trivial, trivial, trivial⟩
          · intro hP
            simp only [hP, Bool.false_eq_true, if_false]
            exact ⟨trivial, trivial, trivial⟩
          · rfl

/-- Witness result record for C5, passenger mode: the scenario bus evaluated
with passenger coordinates `(10, 20)`. -/
noncomputable def wResultP : BusResult :=
  (evalBusIn wStop (some "10") (some "20") wBus).getD
    { id := "", busNumber := "", busName := "", routeName := "", routeNumber := ""
      driver := "", currentLocation := ⟨0, 0⟩, speed := 0, distanceKm := 0
      distanceToStop := 0, etaMinutes := 0, totalJourneyMinutes := 0
      lastUpdated := 0, stopsAway := 0, routePolyline := [] }

/-- Witness for C5: the concrete scenario evaluated once with a passenger at
`(10, 20)` and once without a passenger. -/
theorem C5_eta_targeting_witness :
    (wResultP.distanceKm =
        (calculateETA wBus.currentLocation.lat wBus.currentLocation.lon
          (((10:ℚ) : ℝ)) (((20:ℚ) : ℝ)) wBus.speed).distanceKm ∧
      wResultP.etaMinutes =
        (calculateETA wBus.currentLocation.lat wBus.currentLocation.lon
          (((10:ℚ) : ℝ)) (((20:ℚ) : ℝ)) wBus.speed).etaMinutes ∧
      wResultP.totalJourneyMinutes = wResultP.etaMinutes +
        walkingMinutesOfKm (round2 (haversineDistance (((10:ℚ) : ℝ)) (((20:ℚ) : ℝ))
          wStop.location.lat wStop.location.lon))) ∧
    wResult.totalJourneyMinutes = wResult.etaMinutes ∧
    wResultP.distanceToStop = round2 (haversineDistance wBus.currentLocation.lat
      wBus.currentLocation.lon wStop.location.lat wStop.location.lon) := by
  refine ⟨(C5_eta_targeting wStop (some "10") (some "20") wBus wResultP 10 20 rfl).1
      (by decide) (by decide) (by decide), ?_, ?_⟩
  · exact ((C5_eta_targeting wStop none none wBus wResult 0 0 rfl).2.1 (by decide)).2.2
  · exact (C5_eta_targeting wStop (some "10") (some "20") wBus wResultP 10 20 rfl).2.2

/-- C6: with a valid (finite) passenger coordinate, the passenger summary
reports `walkingDistanceKm` equal to the passenger → stop haversine distance
rounded to 2 decimals and `walkingMinutes = ceil(walkingDistanceKm / 5 · 60)`
(ceiling, not rounding); in particular `walkingDistanceKm = 1.01` gives
`walkingMinutes = 13`. -/
theorem C6_walking_fields (stop : StopDoc) (latP lngP : Option String)
    (buses : List BusDoc) (la lo : ℚ)
    (hP : hasPassengerOf latP lngP = true)
    (hla : pCoordOf latP = some (.num la))
    (hlo : pCoordOf lngP = some (.num lo)) :
    (stopArrivalQuery stop latP lngP buses).passenger =
      some { lat := ((la : ℝ)), lng := ((lo : ℝ))
             walkingDistanceKm := round2 (haversineDistance ((la : ℝ)) ((lo : ℝ))
               stop.location.lat stop.location.lon)
             walkingMinutes := walkingMinutesOfKm
               (round2 (haversineDistance ((la : ℝ)) ((lo : ℝ))
                 stop.location.lat stop.location.lon)) } ∧
    walkingMinutesOfKm 1.01 = 13 := by
  constructor
  · simp only [stopArrivalQuery, hP, hla, hlo, jsRealOf, if_true]
  · unfold walkingMinutesOfKm
    rw [show (1.01 : ℝ) / 5 * 60 = 12.12 by norm_num]
    rw [Int.ceil_eq_iff]
    constructor <;> push_cast <;> norm_num

/-- Witness for C6: passenger at `(10, 20)` scanning the scenario stop. -/
theorem C6_walking_fields_witness :
    (stopArrivalQuery wStop (some "10") (some "20") []).passenger =
      some { lat := (((10:ℚ) : ℝ)), lng := (((20:ℚ) : ℝ))
             walkingDistanceKm := round2 (haversineDistance (((10:ℚ) : ℝ))
               (((20:ℚ) : ℝ)) wStop.location.lat wStop.location.lon)
             walkingMinutes := walkingMinutesOfKm
               (round2 (haversineDistance (((10:ℚ) : ℝ)) (((20:ℚ) : ℝ))
                 wStop.location.lat wStop.location.lon)) } ∧
    walkingMinutesOfKm 1.01 = 13 :=
  C6_walking_fields wStop (some "10") (some "20") [] 10 20
    (by decide) (by decide) (by decide)

/-- Two parameter pairs that parse identically produce identical query
results: the handler consumes the raw parameters only through
`pCoordOf`. -/
theorem stopArrivalQuery_params_congr (stop : StopDoc)
    (latP latP' lngP lngP' : Option String) (buses : List BusDoc)
    (hlat : pCoordOf latP = pCoordOf latP')
    (hlng : pCoordOf lngP = pCoordOf lngP') :
    stopArrivalQuery stop latP lngP buses =
      stopArrivalQuery stop latP' lngP' buses := by
  have heval : evalBusIn stop latP lngP = evalBusIn stop latP' lngP' :=
    funext fun bus => by
      unfold evalBusIn hasPassengerOf
      rw [hlat, hlng]
  have hhas : hasPassengerOf latP lngP = hasPassengerOf latP' lngP' := by
    unfold hasPassengerOf
    rw [hlat, hlng]
  unfold stopArrivalQuery
  rw [hhas, hlat, hlng, heval]

/-- C8 (amended): a passenger is accepted iff both parameters are supplied,
nonempty, and parse to a non-NaN value — finite or infinite; when not
accepted the query proceeds in stop mode (`passenger = null`) and never
fails.  The original claim's "finite" is too strong: `"Infinity"` parses to
a non-finite value yet is accepted (see the counterexample). -/
theorem C8_passenger_validation (latP lngP : Option String) :
    (hasPassengerOf latP lngP = true ↔
      ((∃ s, latP = some s ∧ s ≠ "" ∧ jsParseFloat s ≠ .nan) ∧
       (∃ s, lngP = some s ∧ s ≠ "" ∧ jsParseFloat s ≠ .nan))) ∧
    (hasPassengerOf latP lngP = false →
      ∀ stop buses, (stopArrivalQuery stop latP lngP buses).passenger = none) := by
  constructor
  · unfold hasPassengerOf pCoordOf
    rcases latP with _ | s1
    · simp
    · rcases lngP with _ | s2
      · by_cases h1 : s1 = "" <;> simp [h1]
      · by_cases h1 : s1 = "" <;> by_cases h2 : s2 = "" <;>
          simp [h1, h2]
  · intro h stop buses
    simp only [stopArrivalQuery, h, Bool.false_eq_true, if_false]

/-- Witness for C8: a malformed latitude (`"abc"`, which parses to NaN) is
rejected and the query degrades to stop mode. -/
theorem C8_passenger_validation_witness :
    (hasPassengerOf (some "abc") (some "1") = true ↔
      ((∃ s, (some "abc" : Option String) = some s ∧ s ≠ "" ∧ jsParseFloat s ≠ .nan) ∧
       (∃ s, (some "1" : Option String) = some s ∧ s ≠ "" ∧ jsParseFloat s ≠ .nan))) ∧
    (stopArrivalQuery wStop (some "abc") (some "1") []).passenger = none :=
  ⟨(C8_passenger_validation (some "abc") (some "1")).1,
   (C8_passenger_validation (some "abc") (some "1")).2 (by decide) wStop []⟩

/-- C8 counterexample: `passengerLat = "Infinity"` parses to a non-finite
value (`+∞`, not a finite number), yet the passenger is accepted and the
query runs in passenger mode — not "treated exactly as if no passenger were
supplied". -/
theorem C8_infinity_accepted :
    hasPassengerOf (some "Infinity") (some "1") = true ∧
    jsParseFloat "Infinity" = .posInf ∧
    (stopArrivalQuery wStop (some "Infinity") (some "1") []).passenger.isSome = true :=
  ⟨by decide, by decide, rfl⟩

/-- C10 (amended): only an absent or empty-string passenger parameter is
treated as "no passenger" (the empty string is the only falsy JavaScript
string); the string `"0"` is truthy, parses to the finite coordinate `0`,
and is accepted, so a passenger on the equator or prime meridian is *not*
ignored. -/
theorem C10_empty_string_absent (stop : StopDoc) (latP lngP : Option String)
    (buses : List BusDoc) :
    stopArrivalQuery stop (some "") lngP buses =
      stopArrivalQuery stop none lngP buses ∧
    stopArrivalQuery stop latP (some "") buses =
      stopArrivalQuery stop latP none buses ∧
    pCoordOf (some "0") = some (.num 0) ∧
    hasPassengerOf (some "0") (some "0") = true :=
  ⟨stopArrivalQuery_params_congr stop (some "") none lngP lngP buses rfl rfl,
   stopArrivalQuery_params_congr stop latP latP (some "") none buses rfl rfl,
   by decide, by decide⟩

/-- C10 counterexample: with both parameters equal to the string `"0"` the
query returns a passenger summary (passenger mode), so `"0"` is *not*
treated as an absent passenger. -/
theorem C10_zero_string_not_absent :
    (stopArrivalQuery wStop (some "0") (some "0") []).passenger.isSome = true := rfl

end BusBackend
